import Mathlib

/-!
Shallow embedding of the result-aggregation pipeline of `tools/utils.py`
(benchmark-harness glue for a model-testing framework).

The embedded fragment covers:
* `Console.sh` return-code handling (lines 177-202),
* `df_strip_columns`, `flatten_tags`, `perf_entry_df_to_csv`,
  `perf_entry_dict_to_csv` (lines 1040-1102),
* `handle_single_result`, `handle_exception_result`,
  `handle_multiple_results` (lines 1105-1213),
* `update_perf_csv` (lines 1216-1287).

Modelling conventions:
* Python values flowing through this code (JSON scalars, pandas cells)
  are the inductive `PyVal`.  A pandas float cell is `PyVal.num s` where
  `s` is its decimal literal; the inputs exercised here round-trip
  through `float` unchanged, so the literal doubles as the serialized
  form.  A missing cell is `PyVal.nan`.
* A Python dict is an insertion-ordered association list (`Dict`);
  assignment to an existing key keeps its position, a fresh key is
  appended — exactly CPython dict semantics.
* A pandas `DataFrame` is a column-name list plus rows of cells; a CSV
  file on disk is `CsvFile` (header plus string cells, quoting
  abstracted away).  `pd.concat` (with mismatched columns), column
  selection `df[cols]` (raising `KeyError` on a missing label, as in
  pandas >= 1.0) and `to_csv`/`read_csv` are modelled on this
  representation.
* The two files this code writes (`perf.csv` — the report — and the
  side file `perf_entry.csv`) form the state `FS`.  Every embedded
  operation returns the final `FS` next to an `Except PyErr` result, so
  a raised exception still reports which writes had already happened.
* Raised Python exceptions are `PyErr` values carrying the message the
  source builds.
-/

set_option autoImplicit false

namespace MAD

/-- Python runtime values relevant to this module.  `num s` is a float
carrying its decimal literal; `vlist` is a Python `list` (the `tags`
field of a JSON payload). -/
inductive PyVal where
  | none
  | nan
  | boolean (b : Bool)
  | num (s : String)
  | str (s : String)
  | vlist (l : List PyVal)

/-- Python exceptions raised by the embedded fragment. -/
inductive PyErr where
  | runtimeError (msg : String)
  | keyError (key : String)
  | typeError (msg : String)
  deriving DecidableEq, Repr

/-- Python `str(v)` for the scalar values that reach it in this code
(`str(item)` over tag items, `str(r["model"])` over CSV cells).  A
`vlist` never reaches `str` in the embedded fragment, so its case is a
placeholder. -/
def pyStr : PyVal → String
  | .none => "None"
  | .nan => "nan"
  | .boolean b => if b then "True" else "False"
  | .num s => s
  | .str s => s
  | .vlist _ => "<list>"

/-- Python truthiness (`if x:`) for the values used here. -/
def pyTruthy : PyVal → Bool
  | .none => false
  | .nan => true
  | .boolean b => b
  | .num s => !(s.all (fun c => c == '0' || c == '.' || c == '-'))
  | .str s => !(s == "")
  | .vlist l => !l.isEmpty

/-- `pd.notna`: false exactly on `NaN` and `None`. -/
def pdNotna : PyVal → Bool
  | .nan => false
  | .none => false
  | _ => true

/-- Python `x is not None`. -/
def isNotNone : PyVal → Bool
  | .none => false
  | _ => true

/-- An insertion-ordered Python dict with string keys. -/
abbrev Dict := List (String × PyVal)

/-- Key membership in a dict. -/
def hasKey (d : Dict) (k : String) : Bool :=
  d.any (fun p => p.1 == k)

/-- Python `d[k]` as an option (`Option.none` = would raise `KeyError`). -/
def dictGet? (d : Dict) (k : String) : Option PyVal :=
  (d.find? (fun p => p.1 == k)).map Prod.snd

/-- Python `d[k] = v`: overwrite in place (keeping the key position) or
append a fresh key at the end.  Python dicts never hold a key twice, so
replacing the first occurrence is the full CPython semantics. -/
def dictSet : Dict → String → PyVal → Dict
  | [], k, v => [(k, v)]
  | p :: ps, k, v => if p.1 == k then (k, v) :: ps else p :: dictSet ps k v

/-- The keys of a dict, in insertion order. -/
def dictKeys (d : Dict) : List String :=
  d.map Prod.fst

/-- A pandas DataFrame: ordered column names plus rows of cells.  The
row index is not modelled (every write below uses `index=False`, and
`ignore_index` only affects the index). -/
structure DataFrame where
  cols : List String
  rows : List (List PyVal)

/-- A CSV file as written by `to_csv(index=False)`: header plus rows of
serialized cells (an empty string is a missing value). -/
structure CsvFile where
  header : List String
  rows : List (List String)
  deriving DecidableEq, Repr

/-- The two files touched by the aggregator: the report (`perf.csv`,
`Option.none` when it does not exist) and the side file
(`perf_entry.csv`). -/
structure FS where
  report : Option CsvFile
  perfEntry : Option CsvFile

/-- Cell lookup by column name; first matching column wins, a column
absent from the frame reads as `NaN` (the fill pandas uses when
aligning mismatched frames). -/
def rowLookup : List String → List PyVal → String → PyVal
  | [], _, _ => .nan
  | _ :: _, [], _ => .nan
  | c :: cs, v :: vs, k => if c == k then v else rowLookup cs vs k

/-- Align one row to a new column list, filling absent columns with
`NaN`. -/
def reindexRow (cols : List String) (row : List PyVal) (newCols : List String) :
    List PyVal :=
  newCols.map (rowLookup cols row)

/-- `pd.DataFrame(d, index=[0])` on a dict of scalars: one row, columns
in dict insertion order. -/
def dfFromDict (d : Dict) : DataFrame :=
  ⟨d.map Prod.fst, [d.map Prod.snd]⟩

/-- `pd.concat([a, b])` with the default outer join: columns are the
union (first frame's order, new columns appended), rows of both frames
aligned to it. -/
def dfConcat (a b : DataFrame) : DataFrame :=
  let cols := a.cols ++ b.cols.filter (fun c => !(a.cols.contains c))
  ⟨cols,
    a.rows.map (fun r => reindexRow a.cols r cols) ++
    b.rows.map (fun r => reindexRow b.cols r cols)⟩

/-- `df[cols]` column selection: raises `KeyError` if any requested
label is absent (pandas >= 1.0 behaviour). -/
def dfSelect (df : DataFrame) (cols : List String) : Except PyErr DataFrame :=
  if cols.all df.cols.contains then
    .ok ⟨cols, df.rows.map (fun r => reindexRow df.cols r cols)⟩
  else .error (.keyError "not in index")

/-- One named column of a frame, read row by row (the observation the
correctness statements below are phrased in). -/
def lookupRows (df : DataFrame) (c : String) : List PyVal :=
  df.rows.map (fun r => rowLookup df.cols r c)

/-- Whitespace as stripped by `str.strip` / `pandas.str.strip`. -/
def isSpaceChar (c : Char) : Bool :=
  c == ' ' || c == '\t' || c == '\n' || c == '\r'

/-- Python `s.strip()` on both ends (structural recursion over the
character list, so it evaluates inside the kernel). -/
def strTrim (s : String) : String :=
  String.mk (((s.data.dropWhile isSpaceChar).reverse.dropWhile isSpaceChar).reverse)

/-- Python `",".join l` (structural recursion). -/
def commaJoin : List String → String
  | [] => ""
  | [x] => x
  | x :: xs => x ++ "," ++ commaJoin xs

/-- Decimal float literals accepted by the pandas CSV reader that this
embedding recognises (optional sign, digits, at most one point, at
least one digit). -/
def isFloatLit (s : String) : Bool :=
  let t := match s.data with
    | c :: cs => if c == '-' then cs else s.data
    | [] => []
  t.any Char.isDigit &&
    t.all (fun c => c.isDigit || c == '.') &&
    (t.filter (fun c => c == '.')).length ≤ 1

/-- One CSV cell through `pd.read_csv` type inference: empty is `NaN`,
a float literal is numeric, anything else is a string. -/
def parseCell (s : String) : PyVal :=
  if s == "" then .nan else if isFloatLit s then .num s else .str s

/-- `pd.read_csv` on a structured CSV file. -/
def read_csv (f : CsvFile) : DataFrame :=
  ⟨f.header, f.rows.map (fun r => r.map parseCell)⟩

/-- One cell through `to_csv`: missing values serialize as empty
(default `na_rep`). -/
def cellToCsv : PyVal → String
  | .none => ""
  | .nan => ""
  | .boolean b => if b then "True" else "False"
  | .num s => s
  | .str s => s
  | .vlist _ => "<list>"

/-- `df.to_csv(path, index=False)` producing the structured file. -/
def to_csv (df : DataFrame) : CsvFile :=
  ⟨df.cols, df.rows.map (fun r => r.map cellToCsv)⟩

/-- Source `df_strip_columns` (utils.py:1040): strip whitespace from
every column name. -/
def df_strip_columns (df : DataFrame) : DataFrame :=
  ⟨df.cols.map strTrim, df.rows⟩

/-- Source `flatten_tags` (utils.py:1066): `perf_entry["tags"]` is read
unconditionally, so a record without a `tags` key raises `KeyError`;
a list value is replaced by the comma-join of `str` of its items; any
other value is left alone. -/
def flatten_tags (d : Dict) : Except PyErr Dict :=
  match dictGet? d "tags" with
  | Option.none => .error (.keyError "tags")
  | some (.vlist l) =>
      .ok (dictSet d "tags" (.str (commaJoin (l.map pyStr))))
  | some _ => .ok d

/-- Source `perf_entry_df_to_csv` (utils.py:1079): overwrite the side
file `perf_entry.csv` with the given frame. -/
def perf_entry_df_to_csv (fs : FS) (perf_entry : DataFrame) : FS :=
  { fs with perfEntry := some (to_csv perf_entry) }

/-- Source `perf_entry_dict_to_csv` (utils.py:1091): flatten the tags
in place (mutating the caller's dict — the flattened dict is returned
so callers see the mutation), then write the one-row frame to the side
file. -/
def perf_entry_dict_to_csv (fs : FS) (perf_entry : Dict) :
    FS × Except PyErr Dict :=
  match flatten_tags perf_entry with
  | .error e => (fs, .error e)
  | .ok d2 => (perf_entry_df_to_csv fs (dfFromDict d2), .ok d2)

/-- Source `handle_single_result` (utils.py:1105): write the artifact
dict to the side file, then append it to the in-memory table with
`pd.concat(..., ignore_index=True)`. -/
def handle_single_result (fs : FS) (perf_csv_df : DataFrame)
    (single_result : Dict) : FS × Except PyErr DataFrame :=
  match perf_entry_dict_to_csv fs single_result with
  | (fs2, .error e) => (fs2, .error e)
  | (fs2, .ok d2) => (fs2, .ok (dfConcat perf_csv_df (dfFromDict d2)))

/-- Source `handle_exception_result` (utils.py:1123): textually the
same body as `handle_single_result`. -/
def handle_exception_result (fs : FS) (perf_csv_df : DataFrame)
    (exception_result : Dict) : FS × Except PyErr DataFrame :=
  match perf_entry_dict_to_csv fs exception_result with
  | (fs2, .error e) => (fs2, .error e)
  | (fs2, .ok d2) => (fs2, .ok (dfConcat perf_csv_df (dfFromDict d2)))

/-- The required multiple-results CSV headings (utils.py:1173). -/
def headings : List String := ["model", "performance", "metric"]

/-- One loop iteration of the multiple-results path (utils.py:1189):
overlay model / performance / metric / status on the (shared, mutated
in place) `common_info` dict; status is SUCCESS iff the row's
performance is not `None` and `pd.notna` holds of it. -/
def buildRow (ci : Dict) (model_name : String) (cols : List String)
    (r : List PyVal) : Dict :=
  let perf := rowLookup cols r "performance"
  let d1 := dictSet ci "model"
    (.str (model_name ++ "_" ++ pyStr (rowLookup cols r "model")))
  let d2 := dictSet d1 "performance" perf
  let d3 := dictSet d2 "metric" (rowLookup cols r "metric")
  dictSet d3 "status"
    (.str (if isNotNone perf && pdNotna perf then "SUCCESS" else "FAILURE"))

/-- The row loop of `handle_multiple_results`: thread the shared dict
and concatenate each one-row frame onto the accumulator. -/
def multiLoop (model_name : String) (cols : List String) :
    List (List PyVal) → Dict × DataFrame → Dict × DataFrame
  | [], acc => acc
  | r :: rest, (d, f) =>
      let d2 := buildRow d model_name cols r
      multiLoop model_name cols rest (d2, dfConcat f (dfFromDict d2))

/-- Source `handle_multiple_results` (utils.py:1144): validate the
(whitespace-trimmed) artifact header — first the column count, then
each required heading in order; read and flatten `common_info`
(`read_json(None)` raises `TypeError`, as does `model_name + "_"` with
`model_name = None` once a row is processed); build the rows; select
the report's columns (KeyError on a missing label); write the side
file; append. -/
def handle_multiple_results (fs : FS) (perf_csv_df : DataFrame)
    (multiple_results : CsvFile) (common_info : Option Dict)
    (model_name : Option String) : FS × Except PyErr DataFrame :=
  let mdf := df_strip_columns (read_csv multiple_results)
  let header := mdf.cols
  if header.length ≠ 3 then
    (fs, .error (.runtimeError
      "Multiple Results CSV file must have three columns: model, performance, metric"))
  else
    match headings.find? (fun h => !(header.contains h)) with
    | some h =>
        (fs, .error (.runtimeError
          ("Multiple Results CSV file is missing the " ++ h ++ " column")))
    | Option.none =>
      match common_info with
      | Option.none =>
          (fs, .error (.typeError
            "expected str, bytes or os.PathLike object, not NoneType"))
      | some ci =>
        match flatten_tags ci with
        | .error e => (fs, .error e)
        | .ok ci2 =>
          if !mdf.rows.isEmpty && model_name.isNone then
            (fs, .error (.typeError
              "can only concatenate str (not NoneType) to str"))
          else
            let final :=
              (multiLoop (model_name.getD "") header mdf.rows (ci2, ⟨[], []⟩)).2
            match dfSelect final perf_csv_df.cols with
            | .error e => (fs, .error e)
            | .ok sel =>
                (perf_entry_df_to_csv fs sel, .ok (dfConcat perf_csv_df sel))

/-- The canonical report columns created when `perf.csv` does not exist
(utils.py:1241). -/
def perfCsvColumns : List String :=
  ["pipeline", "model", "tags", "args", "docker_file", "base_docker",
   "docker_sha", "docker_image", "machine_name", "host_os",
   "gpu_architecture", "n_gpus", "training_precision", "performance",
   "metric", "status", "build_duration", "test_duration", "git_commit",
   "relative_change"]

/-- The keyword arguments of `update_perf_csv`; artifact paths carry
their parsed contents (`read_json` / `read_csv` of the named file). -/
structure UpdateArgs where
  single_result : Option Dict := Option.none
  exception_result : Option Dict := Option.none
  failed_result : Option Dict := Option.none
  multiple_results : Option CsvFile := Option.none
  model_name : Option String := Option.none
  common_info : Option Dict := Option.none

/-- First half of `update_perf_csv` (utils.py:1239): the in-memory
report — the empty canonical frame when `perf.csv` does not exist,
otherwise the file read back with stripped column names. -/
def load_perf_csv (fs : FS) : DataFrame :=
  match fs.report with
  | Option.none => ⟨perfCsvColumns, []⟩
  | some f => df_strip_columns (read_csv f)

/-- Last lines of `update_perf_csv` (utils.py:1286): persist the
updated frame to `perf.csv`, unless a handler raised. -/
def persist (handled : FS × Except PyErr DataFrame) : FS × Except PyErr Unit :=
  match handled with
  | (fs2, .error e) => (fs2, .error e)
  | (fs2, .ok df) => ({ fs2 with report := some (to_csv df) }, .ok ())

/-- Source `update_perf_csv` (utils.py:1216): load the report, dispatch
on the supplied artifact with priority multiple > single > exception
(`failed_result` never consulted), raise if none is supplied, and
persist the updated frame.  The returned `FS` is the state after the
call even when it raises. -/
def update_perf_csv (a : UpdateArgs) (fs : FS) : FS × Except PyErr Unit :=
  let perf_csv_df : DataFrame := load_perf_csv fs
  persist
    (match a.multiple_results with
     | some m => handle_multiple_results fs perf_csv_df m a.common_info a.model_name
     | Option.none =>
       match a.single_result with
       | some s => handle_single_result fs perf_csv_df s
       | Option.none =>
         match a.exception_result with
         | some e => handle_exception_result fs perf_csv_df e
         | Option.none =>
           (fs, .error (.runtimeError
             "At least one of the following must be provided: single_result, exception_result, failed_result, multiple_results")))

/-- Source `Console.sh`, return-code handling (utils.py:177-202): on a
nonzero exit with `can_fail` false, the raise builds its message with
`"Subprocess " + secret + ...` when `secret` is truthy — string
concatenation, which on the annotated `bool` argument raises
`TypeError` instead; with `can_fail` true the stripped output is
returned regardless. -/
def console_sh_check (command : String) (can_fail : Bool) (secret : PyVal)
    (returncode : Int) (outs : String) : Except PyErr String :=
  if returncode ≠ 0 && !can_fail then
    if !(pyTruthy secret) then
      .error (.runtimeError
        ("Subprocess \x27" ++ command ++ "\x27 failed with exit code " ++
          toString returncode))
    else
      match secret with
      | .str s =>
          .error (.runtimeError
            ("Subprocess \x27" ++ s ++ "\x27 failed with exit code " ++
              toString returncode))
      | .boolean _ =>
          .error (.typeError "can only concatenate str (not bool) to str")
      | _ => .error (.typeError "can only concatenate str to str")
  else .ok (strTrim outs)

/-! ### Basic lemmas about the embedded primitives -/

lemma contains_iff {l : List String} {a : String} : l.contains a = true ↔ a ∈ l :=
  List.elem_iff

lemma rowLookup_not_mem : ∀ (cols : List String) (row : List PyVal) (c : String),
    c ∉ cols → rowLookup cols row c = .nan
  | [], [], _, _ => rfl
  | [], _ :: _, _, _ => rfl
  | _ :: _, [], _, _ => rfl
  | x :: xs, v :: vs, c, h => by
      have hx : ¬ (x == c) = true := by
        simp only [beq_iff_eq]
        intro he
        exact h (by rw [he]; exact List.mem_cons_self _ _)
      simp only [rowLookup, if_neg hx]
      exact rowLookup_not_mem xs vs c (fun hm => h (List.mem_cons_of_mem _ hm))

lemma rowLookup_map_self : ∀ (ks : List String) (f : String → PyVal) (c : String),
    c ∈ ks → rowLookup ks (ks.map f) c = f c
  | [], _, _, h => absurd h (List.not_mem_nil _)
  | x :: xs, f, c, h => by
      by_cases hx : x = c
      · subst hx
        simp [rowLookup]
      · have hc : c ∈ xs := by
          rcases List.mem_cons.mp h with h1 | h2
          · exact absurd h1.symm hx
          · exact h2
        have hxb : ¬ (x == c) = true := by simp [beq_iff_eq, hx]
        simp only [List.map_cons, rowLookup, if_neg hxb]
        exact rowLookup_map_self xs f c hc

lemma rowLookup_reindexRow (cols newCols : List String) (row : List PyVal)
    (c : String) :
    rowLookup newCols (reindexRow cols row newCols) c =
      if c ∈ newCols then rowLookup cols row c else .nan := by
  by_cases h : c ∈ newCols
  · rw [if_pos h]
    exact rowLookup_map_self newCols _ c h
  · rw [if_neg h]
    exact rowLookup_not_mem newCols _ c h

lemma lookupRows_mk_append (cols : List String) (rs1 rs2 : List (List PyVal))
    (c : String) :
    lookupRows ⟨cols, rs1 ++ rs2⟩ c =
      lookupRows ⟨cols, rs1⟩ c ++ lookupRows ⟨cols, rs2⟩ c := by
  simp [lookupRows]

lemma lookupRows_reindexed (cols newCols : List String)
    (rows : List (List PyVal)) (c : String) (h : c ∈ newCols) :
    lookupRows ⟨newCols, rows.map (fun r => reindexRow cols r newCols)⟩ c =
      lookupRows ⟨cols, rows⟩ c := by
  simp only [lookupRows, List.map_map]
  apply List.map_congr_left
  intro r _
  simp only [Function.comp]
  rw [rowLookup_reindexRow, if_pos h]

lemma dfConcat_cols_of_subset {a b : DataFrame} (h : ∀ c ∈ b.cols, c ∈ a.cols) :
    (dfConcat a b).cols = a.cols := by
  show a.cols ++ b.cols.filter (fun c => !(a.cols.contains c)) = a.cols
  rw [List.filter_eq_nil_iff.mpr, List.append_nil]
  intro c hc
  simp [contains_iff, h c hc]

lemma mem_dfConcat_cols {a b : DataFrame} {c : String} :
    c ∈ (dfConcat a b).cols ↔ c ∈ a.cols ∨ c ∈ b.cols := by
  show c ∈ a.cols ++ b.cols.filter (fun c => !(a.cols.contains c)) ↔ _
  rw [List.mem_append]
  constructor
  · rintro (h | h)
    · exact Or.inl h
    · exact Or.inr (List.mem_of_mem_filter h)
  · rintro (h | h)
    · exact Or.inl h
    · by_cases ha : c ∈ a.cols
      · exact Or.inl ha
      · refine Or.inr (List.mem_filter.mpr ⟨h, ?_⟩)
        simp [contains_iff, ha]

lemma dfConcat_rows_length (a b : DataFrame) :
    (dfConcat a b).rows.length = a.rows.length + b.rows.length := by
  simp [dfConcat]

lemma lookupRows_dfConcat {a b : DataFrame} {c : String}
    (h : c ∈ (dfConcat a b).cols) :
    lookupRows (dfConcat a b) c = lookupRows a c ++ lookupRows b c := by
  have hc : c ∈ a.cols ++ b.cols.filter (fun x => !(a.cols.contains x)) := h
  show lookupRows
      ⟨a.cols ++ b.cols.filter (fun x => !(a.cols.contains x)),
        a.rows.map (fun r => reindexRow a.cols r
          (a.cols ++ b.cols.filter (fun x => !(a.cols.contains x)))) ++
        b.rows.map (fun r => reindexRow b.cols r
          (a.cols ++ b.cols.filter (fun x => !(a.cols.contains x))))⟩ c = _
  rw [lookupRows_mk_append, lookupRows_reindexed _ _ _ _ hc,
    lookupRows_reindexed _ _ _ _ hc]

lemma dictGet?_cons_pos {p : String × PyVal} {ps : Dict} {c : String}
    (h : (p.1 == c) = true) : dictGet? (p :: ps) c = some p.2 := by
  simp only [dictGet?]
  rw [@List.find?_cons_of_pos _ (fun q => q.1 == c) p ps h]
  rfl

lemma dictGet?_cons_neg {p : String × PyVal} {ps : Dict} {c : String}
    (h : ¬ (p.1 == c) = true) : dictGet? (p :: ps) c = dictGet? ps c := by
  simp only [dictGet?]
  rw [@List.find?_cons_of_neg _ (fun q => q.1 == c) p ps h]

lemma rowLookup_keys_vals (d : Dict) (c : String) :
    rowLookup (d.map Prod.fst) (d.map Prod.snd) c = (dictGet? d c).getD .nan := by
  induction d with
  | nil => rfl
  | cons p ps ih =>
      by_cases h : (p.1 == c) = true
      · rw [dictGet?_cons_pos h]
        simp only [List.map_cons, rowLookup, if_pos h]
        rfl
      · rw [dictGet?_cons_neg h]
        simp only [List.map_cons, rowLookup, if_neg h]
        exact ih

lemma lookupRows_dfFromDict (d : Dict) (c : String) :
    lookupRows (dfFromDict d) c = [(dictGet? d c).getD .nan] := by
  simp [lookupRows, dfFromDict, rowLookup_keys_vals]

/-! ### Dict update lemmas -/

lemma dictGet?_dictSet_self (d : Dict) (k : String) (v : PyVal) :
    dictGet? (dictSet d k v) k = some v := by
  induction d with
  | nil => simp [dictSet, dictGet?]
  | cons p ps ih =>
      by_cases h : (p.1 == k) = true
      · simp only [dictSet, if_pos h]
        exact dictGet?_cons_pos (by simp)
      · simp only [dictSet, if_neg h]
        rw [dictGet?_cons_neg h]
        exact ih

lemma dictGet?_dictSet_ne (d : Dict) {k k2 : String} (v : PyVal) (h : k2 ≠ k) :
    dictGet? (dictSet d k v) k2 = dictGet? d k2 := by
  have hne : ¬ ((k : String) == k2) = true := by simp [beq_iff_eq]; exact fun e => h e.symm
  induction d with
  | nil =>
      simp only [dictSet]
      rw [dictGet?_cons_neg hne]
  | cons p ps ih =>
      by_cases hp : (p.1 == k) = true
      · simp only [dictSet, if_pos hp]
        rw [dictGet?_cons_neg hne]
        by_cases hp2 : (p.1 == k2) = true
        · exact absurd (beq_iff_eq.mp hp ▸ beq_iff_eq.mp hp2) (fun e => h e.symm)
        · rw [dictGet?_cons_neg hp2]
      · simp only [dictSet, if_neg hp]
        by_cases hp2 : (p.1 == k2) = true
        · rw [dictGet?_cons_pos hp2, dictGet?_cons_pos hp2]
        · rw [dictGet?_cons_neg hp2, dictGet?_cons_neg hp2]
          exact ih

/-- The key list of a dict after `d[k] = v`: unchanged when the key is
present, otherwise the key appended. -/
def addKey (ks : List String) (k : String) : List String :=
  if ks.contains k then ks else ks ++ [k]

lemma dictKeys_dictSet (d : Dict) (k : String) (v : PyVal) :
    dictKeys (dictSet d k v) = addKey (dictKeys d) k := by
  induction d with
  | nil => simp [dictSet, dictKeys, addKey]
  | cons p ps ih =>
      by_cases h : (p.1 == k) = true
      · have he : p.1 = k := beq_iff_eq.mp h
        simp only [dictSet, if_pos h, dictKeys, List.map_cons, addKey]
        rw [if_pos]
        · rw [he]
        · exact contains_iff.mpr (by rw [← he]; exact List.mem_cons_self _ _)
      · have he : ¬ p.1 = k := fun e => h (beq_iff_eq.mpr e)
        simp only [dictSet, if_neg h, dictKeys, List.map_cons, addKey] at ih ⊢
        by_cases hk : (List.map Prod.fst ps).contains k = true
        · have hcond : (p.1 :: List.map Prod.fst ps).contains k = true :=
            contains_iff.mpr (List.mem_cons_of_mem _ (contains_iff.mp hk))
          rw [if_pos hk] at ih
          rw [if_pos hcond, ih]
        · have hcond : ¬ (p.1 :: List.map Prod.fst ps).contains k = true := by
            intro hc
            rcases List.mem_cons.mp (contains_iff.mp hc) with h1 | h2
            · exact he h1.symm
            · exact hk (contains_iff.mpr h2)
          rw [if_neg hk] at ih
          rw [if_neg hcond, ih]
          rfl

lemma mem_addKey {ks : List String} {k c : String} :
    c ∈ addKey ks k ↔ c ∈ ks ∨ c = k := by
  unfold addKey
  split_ifs with h
  · have hk : k ∈ ks := contains_iff.mp h
    constructor
    · exact Or.inl
    · rintro (hc | rfl)
      · exact hc
      · exact hk
  · simp

lemma addKey_of_mem {ks : List String} {k : String} (h : k ∈ ks) :
    addKey ks k = ks := by
  unfold addKey
  rw [if_pos (contains_iff.mpr h)]

/-- The key list every row dict of the multiple-results loop carries:
the common-info keys followed by the overlaid ones. -/
def builtKeys (ks : List String) : List String :=
  addKey (addKey (addKey (addKey ks "model") "performance") "metric") "status"

lemma mem_builtKeys {ks : List String} {c : String} :
    c ∈ builtKeys ks ↔
      c ∈ ks ∨ c = "model" ∨ c = "performance" ∨ c = "metric" ∨ c = "status" := by
  simp [builtKeys, mem_addKey, or_assoc]

lemma builtKeys_idem (ks : List String) : builtKeys (builtKeys ks) = builtKeys ks := by
  have h1 : "model" ∈ builtKeys ks := mem_builtKeys.mpr (Or.inr (Or.inl rfl))
  have h2 : "performance" ∈ builtKeys ks :=
    mem_builtKeys.mpr (Or.inr (Or.inr (Or.inl rfl)))
  have h3 : "metric" ∈ builtKeys ks :=
    mem_builtKeys.mpr (Or.inr (Or.inr (Or.inr (Or.inl rfl))))
  have h4 : "status" ∈ builtKeys ks :=
    mem_builtKeys.mpr (Or.inr (Or.inr (Or.inr (Or.inr rfl))))
  conv_lhs => rw [builtKeys]
  rw [addKey_of_mem h1, addKey_of_mem h2, addKey_of_mem h3, addKey_of_mem h4]

/-! ### buildRow lemmas -/

lemma dictKeys_buildRow (d : Dict) (mn : String) (cols : List String)
    (r : List PyVal) :
    dictKeys (buildRow d mn cols r) = builtKeys (dictKeys d) := by
  simp [buildRow, builtKeys, dictKeys_dictSet]

lemma dictGet?_buildRow (d : Dict) (mn : String) (cols : List String)
    (r : List PyVal) (c : String) :
    dictGet? (buildRow d mn cols r) c =
      if c = "status" then
        some (.str (if isNotNone (rowLookup cols r "performance") &&
            pdNotna (rowLookup cols r "performance")
          then "SUCCESS" else "FAILURE"))
      else if c = "metric" then some (rowLookup cols r "metric")
      else if c = "performance" then some (rowLookup cols r "performance")
      else if c = "model" then
        some (.str (mn ++ "_" ++ pyStr (rowLookup cols r "model")))
      else dictGet? d c := by
  simp only [buildRow]
  generalize (if isNotNone (rowLookup cols r "performance") &&
      pdNotna (rowLookup cols r "performance")
    then "SUCCESS" else "FAILURE") = sv
  split_ifs with h1 h2 h3 h4
  · subst h1
    rw [dictGet?_dictSet_self]
  · subst h2
    rw [dictGet?_dictSet_ne _ _ (by decide), dictGet?_dictSet_self]
  · subst h3
    rw [dictGet?_dictSet_ne _ _ (by decide), dictGet?_dictSet_ne _ _ (by decide),
      dictGet?_dictSet_self]
  · subst h4
    rw [dictGet?_dictSet_ne _ _ (by decide), dictGet?_dictSet_ne _ _ (by decide),
      dictGet?_dictSet_ne _ _ (by decide), dictGet?_dictSet_self]
  · rw [dictGet?_dictSet_ne _ _ h1, dictGet?_dictSet_ne _ _ h2,
      dictGet?_dictSet_ne _ _ h3, dictGet?_dictSet_ne _ _ h4]

lemma dictGet?_buildRow_stable (d : Dict) (mn : String) (cols : List String)
    (r1 r2 : List PyVal) (c : String) :
    dictGet? (buildRow (buildRow d mn cols r1) mn cols r2) c =
      dictGet? (buildRow d mn cols r2) c := by
  conv_rhs => rw [dictGet?_buildRow]
  conv_lhs => rw [dictGet?_buildRow]
  generalize (if isNotNone (rowLookup cols r2 "performance") &&
      pdNotna (rowLookup cols r2 "performance")
    then "SUCCESS" else "FAILURE") = sv
  split_ifs with h1 h2 h3 h4
  · rfl
  · rfl
  · rfl
  · rfl
  · rw [dictGet?_buildRow, if_neg h1, if_neg h2, if_neg h3, if_neg h4]

/-! ### The multiple-results row loop -/

lemma multiLoop_spec (mn : String) (cols : List String) :
    ∀ (prows : List (List PyVal)) (d : Dict) (f : DataFrame),
      f.cols = builtKeys (dictKeys d) →
      (multiLoop mn cols prows (d, f)).2.cols = builtKeys (dictKeys d) ∧
      (multiLoop mn cols prows (d, f)).2.rows.length = f.rows.length + prows.length ∧
      ∀ c ∈ builtKeys (dictKeys d),
        lookupRows (multiLoop mn cols prows (d, f)).2 c =
          lookupRows f c ++
            prows.map (fun r => (dictGet? (buildRow d mn cols r) c).getD .nan)
  | [], d, f, hf => by
      refine ⟨hf, by simp [multiLoop], ?_⟩
      intro c _
      simp [multiLoop]
  | r :: rest, d, f, hf => by
      have hkeys2 : dictKeys (buildRow d mn cols r) = builtKeys (dictKeys d) :=
        dictKeys_buildRow d mn cols r
      have hBK2 : builtKeys (dictKeys (buildRow d mn cols r)) =
          builtKeys (dictKeys d) := by
        rw [hkeys2, builtKeys_idem]
      have hsub : ∀ c ∈ (dfFromDict (buildRow d mn cols r)).cols, c ∈ f.cols := by
        intro c hc
        rw [hf, ← hkeys2]
        exact hc
      have hf2cols : (dfConcat f (dfFromDict (buildRow d mn cols r))).cols = f.cols :=
        dfConcat_cols_of_subset hsub
      have hstep := multiLoop_spec mn cols rest (buildRow d mn cols r)
        (dfConcat f (dfFromDict (buildRow d mn cols r)))
        (by rw [hf2cols, hf, hBK2])
      have hml : multiLoop mn cols (r :: rest) (d, f) =
          multiLoop mn cols rest
            (buildRow d mn cols r, dfConcat f (dfFromDict (buildRow d mn cols r))) := rfl
      rw [hml]
      refine ⟨?_, ?_, ?_⟩
      · rw [hstep.1, hBK2]
      · rw [hstep.2.1, dfConcat_rows_length]
        simp only [dfFromDict, List.length_cons, List.length_nil, List.length_map]
        omega
      · intro c hc
        have hc2 : c ∈ builtKeys (dictKeys (buildRow d mn cols r)) := by
          rw [hBK2]
          exact hc
        have hcf2 : c ∈ (dfConcat f (dfFromDict (buildRow d mn cols r))).cols := by
          rw [hf2cols, hf]
          exact hc
        have htail : rest.map (fun r2 =>
            (dictGet? (buildRow (buildRow d mn cols r) mn cols r2) c).getD .nan) =
            rest.map (fun r2 => (dictGet? (buildRow d mn cols r2) c).getD .nan) :=
          List.map_congr_left (fun r2 _ => by rw [dictGet?_buildRow_stable])
        rw [hstep.2.2 c hc2, lookupRows_dfConcat hcf2, lookupRows_dfFromDict,
          htail, List.append_assoc]
        rfl

lemma dfConcat_left_empty_cols (b : DataFrame) :
    (dfConcat ⟨[], []⟩ b).cols = b.cols := by
  show [] ++ b.cols.filter (fun c => !(([] : List String).contains c)) = b.cols
  rw [List.nil_append]
  apply List.filter_eq_self.mpr
  intro c _
  simp

/-- The whole row loop started from the shared `common_info` dict and an
empty accumulator frame, on at least one row. -/
lemma multiLoop_run (mn : String) (hdr : List String) (ci2 : Dict)
    (pr0 : List PyVal) (prrest : List (List PyVal)) :
    (multiLoop mn hdr (pr0 :: prrest) (ci2, ⟨[], []⟩)).2.cols =
      builtKeys (dictKeys ci2) ∧
    (multiLoop mn hdr (pr0 :: prrest) (ci2, ⟨[], []⟩)).2.rows.length =
      prrest.length + 1 ∧
    ∀ c ∈ builtKeys (dictKeys ci2),
      lookupRows (multiLoop mn hdr (pr0 :: prrest) (ci2, ⟨[], []⟩)).2 c =
        (pr0 :: prrest).map
          (fun r => (dictGet? (buildRow ci2 mn hdr r) c).getD .nan) := by
  have hkeys1 : dictKeys (buildRow ci2 mn hdr pr0) = builtKeys (dictKeys ci2) :=
    dictKeys_buildRow ci2 mn hdr pr0
  have hBKfix : builtKeys (dictKeys (buildRow ci2 mn hdr pr0)) =
      dictKeys (buildRow ci2 mn hdr pr0) := by
    rw [hkeys1, builtKeys_idem]
  have hf1cols : (dfConcat ⟨[], []⟩ (dfFromDict (buildRow ci2 mn hdr pr0))).cols =
      dictKeys (buildRow ci2 mn hdr pr0) :=
    dfConcat_left_empty_cols _
  have hstep := multiLoop_spec mn hdr prrest (buildRow ci2 mn hdr pr0)
    (dfConcat ⟨[], []⟩ (dfFromDict (buildRow ci2 mn hdr pr0)))
    (by rw [hf1cols, hBKfix])
  have hml : multiLoop mn hdr (pr0 :: prrest) (ci2, ⟨[], []⟩) =
      multiLoop mn hdr prrest (buildRow ci2 mn hdr pr0,
        dfConcat ⟨[], []⟩ (dfFromDict (buildRow ci2 mn hdr pr0))) := rfl
  rw [hml]
  refine ⟨?_, ?_, ?_⟩
  · rw [hstep.1, hBKfix, hkeys1]
  · rw [hstep.2.1, dfConcat_rows_length]
    simp only [dfFromDict, List.length_cons, List.length_nil, List.length_map]
    omega
  · intro c hc
    have hc1 : c ∈ builtKeys (dictKeys (buildRow ci2 mn hdr pr0)) := by
      rw [hBKfix, hkeys1]
      exact hc
    have hcf1 : c ∈ (dfConcat ⟨[], []⟩ (dfFromDict (buildRow ci2 mn hdr pr0))).cols := by
      rw [hf1cols, hkeys1]
      exact hc
    have htail : prrest.map (fun r2 =>
        (dictGet? (buildRow (buildRow ci2 mn hdr pr0) mn hdr r2) c).getD .nan) =
        prrest.map (fun r2 => (dictGet? (buildRow ci2 mn hdr r2) c).getD .nan) :=
      List.map_congr_left (fun r2 _ => by rw [dictGet?_buildRow_stable])
    rw [hstep.2.2 c hc1, lookupRows_dfConcat hcf1, lookupRows_dfFromDict, htail]
    rfl

/-- Inversion of a successful multiple-results call: the artifact
header was valid, `common_info` flattened, and the resulting table is
the old one plus one overlaid row per artifact row, in file order. -/
lemma handle_multiple_ok
    {fs : FS} {pdf : DataFrame} {m : CsvFile} {ci : Dict} {mn : String}
    {fs2 : FS} {df2 : DataFrame}
    (h : handle_multiple_results fs pdf m (some ci) (some mn) = (fs2, .ok df2)) :
    ∃ ci2, flatten_tags ci = .ok ci2 ∧
      df2.cols = pdf.cols ∧
      df2.rows.length = pdf.rows.length + m.rows.length ∧
      ∀ c ∈ pdf.cols,
        lookupRows df2 c = lookupRows pdf c ++
          m.rows.map (fun r =>
            (dictGet? (buildRow ci2 mn (m.header.map strTrim)
              (r.map parseCell)) c).getD .nan) := by
  simp only [handle_multiple_results, Option.getD_some] at h
  split at h
  · simp at h
  · split at h
    · simp at h
    · split at h
      · simp at h
      · next ci2 hflat =>
        split at h
        · simp at h
        · split at h
          · simp at h
          · next sel hsel =>
            refine ⟨ci2, hflat, ?_⟩
            have hdf : dfConcat pdf sel = df2 := by
              have h2 := congrArg Prod.snd h
              simpa using h2
            have hfs : perf_entry_df_to_csv fs sel = fs2 := by
              have h1 := congrArg Prod.fst h
              simpa using h1
            unfold dfSelect at hsel
            split at hsel
            · next hall =>
              simp only [df_strip_columns, read_csv] at hall
              have hseleq : (⟨pdf.cols, ((multiLoop mn (m.header.map strTrim)
                  (m.rows.map (fun r => r.map parseCell)) (ci2, ⟨[], []⟩)).2).rows.map
                    (fun r => reindexRow ((multiLoop mn (m.header.map strTrim)
                      (m.rows.map (fun r => r.map parseCell)) (ci2, ⟨[], []⟩)).2).cols
                      r pdf.cols)⟩ : DataFrame) = sel := by
                injection hsel
              subst hdf
              subst hseleq
              cases hm2 : m.rows with
              | nil =>
                  rw [hm2] at hall
                  simp only [List.map_nil, multiLoop] at hall ⊢
                  have hnil : pdf.cols = [] := by
                    cases hpc : pdf.cols with
                    | nil => rfl
                    | cons x xs =>
                        rw [hpc] at hall
                        simp at hall
                  refine ⟨dfConcat_cols_of_subset (fun c hc => hc), ?_, ?_⟩
                  · rw [dfConcat_rows_length]
                    simp
                  · intro c hc
                    rw [hnil] at hc
                    exact absurd hc (List.not_mem_nil c)
              | cons r0 rrest =>
                  rw [hm2] at hall
                  simp only [List.map_cons] at hall ⊢
                  have run := multiLoop_run mn (m.header.map strTrim) ci2
                    (r0.map parseCell) (rrest.map (fun r => r.map parseCell))
                  have hsubs : ∀ c ∈ pdf.cols, c ∈ ((multiLoop mn (m.header.map strTrim)
                      ((r0.map parseCell) :: rrest.map (fun r => r.map parseCell))
                      (ci2, ⟨[], []⟩)).2).cols :=
                    fun c hc => contains_iff.mp (List.all_eq_true.mp hall c hc)
                  refine ⟨dfConcat_cols_of_subset (fun c hc => hc), ?_, ?_⟩
                  · rw [dfConcat_rows_length]
                    simp only [List.length_map, run.2.1, List.length_cons]
                  · intro c hc
                    have hcF := hsubs c hc
                    have hcBK : c ∈ builtKeys (dictKeys ci2) := by
                      rw [← run.1]
                      exact hcF
                    have hcdf : c ∈ (dfConcat pdf
                        ⟨pdf.cols, ((multiLoop mn (m.header.map strTrim)
                          ((r0.map parseCell) :: rrest.map (fun r => r.map parseCell))
                          (ci2, ⟨[], []⟩)).2).rows.map
                            (fun r => reindexRow ((multiLoop mn (m.header.map strTrim)
                              ((r0.map parseCell) :: rrest.map (fun r => r.map parseCell))
                              (ci2, ⟨[], []⟩)).2).cols r pdf.cols)⟩).cols :=
                      mem_dfConcat_cols.mpr (Or.inl hc)
                    rw [lookupRows_dfConcat hcdf]
                    have hselLookup := lookupRows_reindexed
                      ((multiLoop mn (m.header.map strTrim)
                        ((r0.map parseCell) :: rrest.map (fun r => r.map parseCell))
                        (ci2, ⟨[], []⟩)).2).cols pdf.cols
                      ((multiLoop mn (m.header.map strTrim)
                        ((r0.map parseCell) :: rrest.map (fun r => r.map parseCell))
                        (ci2, ⟨[], []⟩)).2).rows c hc
                    rw [hselLookup]
                    have hFeta : (⟨((multiLoop mn (m.header.map strTrim)
                        ((r0.map parseCell) :: rrest.map (fun r => r.map parseCell))
                        (ci2, ⟨[], []⟩)).2).cols, ((multiLoop mn (m.header.map strTrim)
                        ((r0.map parseCell) :: rrest.map (fun r => r.map parseCell))
                        (ci2, ⟨[], []⟩)).2).rows⟩ : DataFrame) =
                        (multiLoop mn (m.header.map strTrim)
                          ((r0.map parseCell) :: rrest.map (fun r => r.map parseCell))
                          (ci2, ⟨[], []⟩)).2 := rfl
                    rw [hFeta, run.2.2 c hcBK]
                    simp [List.map_map, Function.comp]
            · exact absurd hsel (by simp)

/-! ### Single / exception path helpers -/

lemma mem_dictKeys_of_get {d : Dict} {k : String} {v : PyVal}
    (h : dictGet? d k = some v) : k ∈ dictKeys d := by
  unfold dictGet? at h
  cases hf : d.find? (fun p => p.1 == k) with
  | none =>
      rw [hf] at h
      simp at h
  | some p =>
      have hp : (p.1 == k) = true :=
        @List.find?_some _ (fun q => q.1 == k) p d hf
      have hm : p ∈ d := List.mem_of_find?_eq_some hf
      have he : p.1 = k := beq_iff_eq.mp hp
      rw [← he]
      exact List.mem_map_of_mem Prod.fst hm

lemma flatten_tags_keys {d d2 : Dict} (h : flatten_tags d = .ok d2) :
    dictKeys d2 = dictKeys d := by
  unfold flatten_tags at h
  split at h
  · exact absurd h (by simp)
  · next l hl =>
      injection h with h
      subst h
      rw [dictKeys_dictSet]
      exact addKey_of_mem (mem_dictKeys_of_get hl)
  · injection h with h
    subst h
    rfl

lemma flatten_tags_get_ne {d d2 : Dict} {k : String} (h : flatten_tags d = .ok d2)
    (hk : k ≠ "tags") : dictGet? d2 k = dictGet? d k := by
  unfold flatten_tags at h
  split at h
  · exact absurd h (by simp)
  · next l hl =>
      injection h with h
      subst h
      exact dictGet?_dictSet_ne _ _ hk
  · injection h with h
    subst h
    rfl

/-- A successful flatten fully determines the single-result handler. -/
lemma handle_single_ok {fs : FS} {pdf : DataFrame} {d d2 : Dict}
    (hflat : flatten_tags d = .ok d2) :
    handle_single_result fs pdf d =
      ({ fs with perfEntry := some (to_csv (dfFromDict d2)) },
        .ok (dfConcat pdf (dfFromDict d2))) := by
  simp [handle_single_result, perf_entry_dict_to_csv, perf_entry_df_to_csv, hflat]

/-- The rows of a concatenation, with the reindex targets phrased via
the projection so they can be rewritten. -/
lemma dfConcat_rows (a b : DataFrame) :
    (dfConcat a b).rows =
      a.rows.map (fun r => reindexRow a.cols r (dfConcat a b).cols) ++
      b.rows.map (fun r => reindexRow b.cols r (dfConcat a b).cols) := rfl

/-! ### Concrete fixtures (the scenarios named by the specification) -/

/-- Filesystem where neither `perf.csv` nor `perf_entry.csv` exists. -/
def fs0 : FS := ⟨Option.none, Option.none⟩

/-- The single-result JSON of the spec scenario — note it has no `tags`
key. -/
def jsonNoTags : Dict :=
  [("model", .str "resnet"), ("performance", .str "123.4"),
   ("metric", .str "images/sec"), ("status", .str "SUCCESS")]

/-- The same payload with a `tags` key added (empty string). -/
def jsonTagged : Dict := jsonNoTags ++ [("tags", .str "")]

/-- `jsonTagged` with one key outside the canonical report schema. -/
def jsonExtra : Dict := jsonTagged ++ [("extra", .str "zz")]

/-- The multiple-results CSV of the spec scenario:
`model,performance,metric` with rows `A,10.0,tok/s` and `B,,tok/s`. -/
def multiCsv : CsvFile :=
  ⟨["model", "performance", "metric"],
   [["A", "10.0", "tok/s"], ["B", "", "tok/s"]]⟩

/-- A multiple-results CSV with four columns. -/
def multiCsvFour : CsvFile :=
  ⟨["model", "performance", "metric", "extra"], [["A", "1", "m", "e"]]⟩

/-- A multiple-results CSV whose second column is named `perf`. -/
def multiCsvPerf : CsvFile :=
  ⟨["model", "perf", "metric"], [["A", "1", "m"]]⟩

/-- The common-info JSON of the spec scenario (pipeline and tags only). -/
def commonSmall : Dict :=
  [("pipeline", .str "p1"), ("tags", .vlist [.str "x", .str "y"])]

/-- A common-info JSON carrying every canonical column except the four
per-row ones. -/
def commonFull : Dict :=
  [("pipeline", .str "p1"), ("tags", .vlist [.str "x", .str "y"]),
   ("args", .str "a"), ("docker_file", .str "d"), ("base_docker", .str "b"),
   ("docker_sha", .str "sh"), ("docker_image", .str "im"),
   ("machine_name", .str "mach"), ("host_os", .str "os"),
   ("gpu_architecture", .str "g"), ("n_gpus", .str "8"),
   ("training_precision", .str "fp16"), ("build_duration", .str "1"),
   ("test_duration", .str "2"), ("git_commit", .str "c"),
   ("relative_change", .str "r")]

/-- The first row appended in the full-common-info scenario. -/
def rowA : List String :=
  ["p1", "suite1_A", "x,y", "a", "d", "b", "sh", "im", "mach", "os", "g", "8",
   "fp16", "10.0", "tok/s", "SUCCESS", "1", "2", "c", "r"]

/-- The second row appended in the full-common-info scenario. -/
def rowB : List String :=
  ["p1", "suite1_B", "x,y", "a", "d", "b", "sh", "im", "mach", "os", "g", "8",
   "fp16", "", "tok/s", "FAILURE", "1", "2", "c", "r"]

/-- A small report table with just the `model` and `status` columns. -/
def pdfMS : DataFrame := ⟨["model", "status"], []⟩

/-- A common-info dict whose tags are already a string. -/
def commonTagsOnly : Dict := [("tags", .str "")]

/-- One concrete run of the multiple-results handler, used to evaluate
the general theorems about it on an explicit input. -/
def hmPair : FS × Except PyErr DataFrame :=
  handle_multiple_results fs0 pdfMS multiCsv (some commonTagsOnly) (some "suite1")

/-- The table produced by `hmPair`. -/
def hmDf : DataFrame :=
  match hmPair.2 with
  | .ok df => df
  | .error _ => ⟨[], []⟩

/-! ### C1: header validation of the multiple-results CSV -/

set_option maxRecDepth 10000 in
/-- C1 counterexample: a four-column multiple-results CSV whose extra
column is named `extra` is rejected before any mutation, but with the
generic three-column message — the error does not name the unexpected
`extra` column, contradicting the claim that every schema violation
names the missing/unexpected column. -/
theorem update_perf_csv_four_column_header_generic_error :
    update_perf_csv
      { multiple_results := some multiCsvFour, common_info := some commonFull,
        model_name := some "suite1" } fs0 =
      (fs0, .error (.runtimeError
        "Multiple Results CSV file must have three columns: model, performance, metric")) ∧
    ¬ ("extra".data <:+:
      "Multiple Results CSV file must have three columns: model, performance, metric".data) :=
  ⟨rfl, by decide⟩

/-- C1 (amended): a multiple-results CSV whose (whitespace-trimmed)
header is not exactly `{model, performance, metric}` makes the call
raise a `RuntimeError` before any row processing, leaving both files
untouched; when the column count is exactly 3 the message names the
first missing required column, while for any other column count the
message is the generic one listing the three required columns (it does
not name the unexpected column). -/
theorem update_perf_csv_invalid_header_rejected
    (fs : FS) (a : UpdateArgs) (m : CsvFile)
    (hm : a.multiple_results = some m)
    (hbad : ¬ ((df_strip_columns (read_csv m)).cols.length = 3 ∧
      ∀ hd ∈ headings, hd ∈ (df_strip_columns (read_csv m)).cols)) :
    (update_perf_csv a fs).1 = fs ∧
    ∃ msg, (update_perf_csv a fs).2 = .error (.runtimeError msg) ∧
      ((df_strip_columns (read_csv m)).cols.length ≠ 3 →
        msg = "Multiple Results CSV file must have three columns: model, performance, metric") ∧
      ((df_strip_columns (read_csv m)).cols.length = 3 →
        ∃ hd ∈ headings, hd ∉ (df_strip_columns (read_csv m)).cols ∧
          msg = "Multiple Results CSV file is missing the " ++ hd ++ " column") := by
  have hred : update_perf_csv a fs =
      persist (handle_multiple_results fs (load_perf_csv fs) m
        a.common_info a.model_name) := by
    simp only [update_perf_csv, hm]
  by_cases hlen : (df_strip_columns (read_csv m)).cols.length = 3
  · cases hfind : headings.find?
        (fun hd => !((df_strip_columns (read_csv m)).cols.contains hd)) with
    | none =>
        exfalso
        apply hbad
        refine ⟨hlen, fun hd hmem => ?_⟩
        have hq := List.find?_eq_none.mp hfind hd hmem
        exact contains_iff.mp (by simpa using hq)
    | some hd0 =>
        have hp : (!((df_strip_columns (read_csv m)).cols.contains hd0)) = true :=
          @List.find?_some _
            (fun hd => !((df_strip_columns (read_csv m)).cols.contains hd))
            hd0 headings hfind
        have hmem := List.mem_of_find?_eq_some hfind
        have hnot : hd0 ∉ (df_strip_columns (read_csv m)).cols := by
          intro hc
          rw [contains_iff.mpr hc] at hp
          simp at hp
        have heval : handle_multiple_results fs (load_perf_csv fs) m
            a.common_info a.model_name =
            (fs, .error (.runtimeError
              ("Multiple Results CSV file is missing the " ++ hd0 ++ " column"))) := by
          simp only [handle_multiple_results]
          rw [if_neg (not_not.mpr hlen), hfind]
        have hupd : update_perf_csv a fs =
            (fs, .error (.runtimeError
              ("Multiple Results CSV file is missing the " ++ hd0 ++ " column"))) := by
          rw [hred, heval]
          rfl
        rw [hupd]
        exact ⟨rfl, _, rfl, fun hne => absurd hlen hne,
          fun _ => ⟨hd0, hmem, hnot, rfl⟩⟩
  · have heval : handle_multiple_results fs (load_perf_csv fs) m
        a.common_info a.model_name =
        (fs, .error (.runtimeError
          "Multiple Results CSV file must have three columns: model, performance, metric")) := by
      simp only [handle_multiple_results]
      rw [if_pos hlen]
    have hupd : update_perf_csv a fs =
        (fs, .error (.runtimeError
          "Multiple Results CSV file must have three columns: model, performance, metric")) := by
      rw [hred, heval]
      rfl
    rw [hupd]
    exact ⟨rfl, _, rfl, fun _ => rfl, fun h3 => absurd h3 hlen⟩

/-- C1 witness: the general rejection theorem evaluated on the CSV with
a `perf` column in place of `performance`. -/
theorem update_perf_csv_invalid_header_rejected_witness :
    (update_perf_csv
      { multiple_results := some multiCsvPerf, common_info := some commonFull,
        model_name := some "suite1" } fs0).1 = fs0 ∧
    ∃ msg, (update_perf_csv
      { multiple_results := some multiCsvPerf, common_info := some commonFull,
        model_name := some "suite1" } fs0).2 = .error (.runtimeError msg) ∧
      ((df_strip_columns (read_csv multiCsvPerf)).cols.length ≠ 3 →
        msg = "Multiple Results CSV file must have three columns: model, performance, metric") ∧
      ((df_strip_columns (read_csv multiCsvPerf)).cols.length = 3 →
        ∃ hd ∈ headings, hd ∉ (df_strip_columns (read_csv multiCsvPerf)).cols ∧
          msg = "Multiple Results CSV file is missing the " ++ hd ++ " column") :=
  update_perf_csv_invalid_header_rejected fs0
    { multiple_results := some multiCsvPerf, common_info := some commonFull,
      model_name := some "suite1" } multiCsvPerf rfl (by decide)

/-! ### C4: the no-tags single-result scenario -/

/-- C4 counterexample: with no report present and the scenario JSON
(which has no `tags` key), the call does not succeed — `flatten_tags`
reads `perf_entry["tags"]` unconditionally, so a `KeyError` is raised
and both files are left untouched (no report is created). -/
theorem update_perf_csv_single_missing_tags_keyerror :
    update_perf_csv { single_result := some jsonNoTags } fs0 =
      (fs0, .error (.keyError "tags")) ∧
    (update_perf_csv { single_result := some jsonNoTags } fs0).2 ≠
      Except.ok () := by
  refine ⟨rfl, ?_⟩
  intro hc
  rw [show (update_perf_csv { single_result := some jsonNoTags } fs0).2 =
      Except.error (PyErr.keyError "tags") from rfl] at hc
  exact Except.noConfusion hc

/-- C4 (amended): the scenario succeeds once the JSON also carries a
`tags` key (here the empty string): the resulting report is exactly
the canonical 20-column header plus one data row with model `resnet`,
performance `123.4`, metric `images/sec`, status `SUCCESS` and every
other column empty. -/
theorem update_perf_csv_single_with_tags_scenario :
    update_perf_csv { single_result := some jsonTagged } fs0 =
      (⟨some ⟨perfCsvColumns,
          [["", "resnet", "", "", "", "", "", "", "", "", "", "", "",
            "123.4", "images/sec", "SUCCESS", "", "", "", ""]]⟩,
        some ⟨["model", "performance", "metric", "status", "tags"],
          [["resnet", "123.4", "images/sec", "SUCCESS", ""]]⟩⟩,
       .ok ()) := rfl

/-! ### C5: the two-row scenario and the reindex to the report columns -/

/-- C5 counterexample: with the scenario common-info (pipeline and tags
only) and no existing report, the reindex `final[perf_csv_df.columns]`
selects the canonical 20 columns from rows that carry only 6, so the
call raises `KeyError` instead of succeeding. -/
theorem update_perf_csv_multiple_small_common_info_keyerror :
    update_perf_csv
      { multiple_results := some multiCsv, common_info := some commonSmall,
        model_name := some "suite1" } fs0 =
      (fs0, .error (.keyError "not in index")) ∧
    (update_perf_csv
      { multiple_results := some multiCsv, common_info := some commonSmall,
        model_name := some "suite1" } fs0).2 ≠
      Except.ok () := by
  refine ⟨rfl, ?_⟩
  intro hc
  rw [show (update_perf_csv
      { multiple_results := some multiCsv, common_info := some commonSmall,
        model_name := some "suite1" } fs0).2 =
      Except.error (PyErr.keyError "not in index") from rfl] at hc
  exact Except.noConfusion hc

/-- C5 (amended): when the common-info supplies every canonical column
except the four per-row ones, the scenario succeeds and appends exactly
the two described rows — `suite1_A, 10.0, tok/s, SUCCESS, tags x,y` and
`suite1_B` with empty performance, `FAILURE`, `tags x,y` — reindexed to
the canonical column order, to both the report and the side file. -/
theorem update_perf_csv_multiple_full_common_info_scenario :
    update_perf_csv
      { multiple_results := some multiCsv, common_info := some commonFull,
        model_name := some "suite1" } fs0 =
      (⟨some ⟨perfCsvColumns, [rowA, rowB]⟩,
        some ⟨perfCsvColumns, [rowA, rowB]⟩⟩, .ok ()) := rfl

/-! ### C6: the canonical 20-column schema across appends -/

/-- C6 counterexample: appending a single-result JSON with one key
outside the canonical schema does not keep the 20-column header — the
unknown key becomes a 21st column instead of being dropped/left empty. -/
theorem update_perf_csv_single_extra_key_adds_column :
    (update_perf_csv { single_result := some jsonExtra } fs0).1.report.map
      CsvFile.header = some (perfCsvColumns ++ ["extra"]) ∧
    perfCsvColumns ++ ["extra"] ≠ perfCsvColumns := by
  refine ⟨rfl, ?_⟩
  intro hcon
  have hlen := congrArg List.length hcon
  simp [perfCsvColumns] at hlen

/-- C6 (amended): a successful single-result append to a report whose
loaded columns are the canonical 20 (including the no-report case),
with a JSON whose keys all lie inside the canonical schema — in any
key order — preserves the schema: the persisted report keeps the
canonical header, every row has exactly 20 fields, and the appended row
is aligned to the canonical order with absent keys serialized as empty
(`cellToCsv` of the `NaN` fill).  A key outside the schema instead
appends a new column (see the counterexample). -/
theorem update_perf_csv_single_schema_preserved
    (fs : FS) (d d2 : Dict)
    (hload : (load_perf_csv fs).cols = perfCsvColumns)
    (hflat : flatten_tags d = .ok d2)
    (hkeys : ∀ k ∈ dictKeys d2, k ∈ perfCsvColumns) :
    ∃ rep : CsvFile,
      update_perf_csv { single_result := some d } fs =
        (⟨some rep, some (to_csv (dfFromDict d2))⟩, .ok ()) ∧
      rep.header = perfCsvColumns ∧
      rep.rows.length = (load_perf_csv fs).rows.length + 1 ∧
      (∀ row ∈ rep.rows, row.length = perfCsvColumns.length) ∧
      rep.rows.getLast? =
        some (perfCsvColumns.map (fun c =>
          cellToCsv ((dictGet? d2 c).getD .nan))) := by
  have hsub : ∀ c ∈ (dfFromDict d2).cols, c ∈ (load_perf_csv fs).cols := by
    intro c hc
    rw [hload]
    exact hkeys c hc
  have hcols : (dfConcat (load_perf_csv fs) (dfFromDict d2)).cols =
      perfCsvColumns := by
    rw [dfConcat_cols_of_subset hsub, hload]
  have heval : update_perf_csv { single_result := some d } fs =
      persist (handle_single_result fs (load_perf_csv fs) d) := rfl
  refine ⟨to_csv (dfConcat (load_perf_csv fs) (dfFromDict d2)), ?_, ?_, ?_, ?_, ?_⟩
  · rw [heval, handle_single_ok hflat]
    rfl
  · exact hcols
  · show ((dfConcat (load_perf_csv fs) (dfFromDict d2)).rows.map _).length = _
    rw [List.length_map, dfConcat_rows_length]
    simp [dfFromDict]
  · intro row hrow
    obtain ⟨r0, hr0, rfl⟩ := List.mem_map.mp hrow
    rw [List.length_map]
    rw [dfConcat_rows] at hr0
    rcases List.mem_append.mp hr0 with hr | hr
    · obtain ⟨r1, _, rfl⟩ := List.mem_map.mp hr
      simp only [reindexRow, List.length_map, hcols]
    · obtain ⟨r1, _, rfl⟩ := List.mem_map.mp hr
      simp only [reindexRow, List.length_map, hcols]
  · show ((dfConcat (load_perf_csv fs) (dfFromDict d2)).rows.map
        (fun r => r.map cellToCsv)).getLast? = _
    rw [dfConcat_rows, List.map_append]
    rw [show (((dfFromDict d2).rows.map (fun r =>
        reindexRow (dfFromDict d2).cols r
          (dfConcat (load_perf_csv fs) (dfFromDict d2)).cols)).map
        (fun r => r.map cellToCsv)) =
        [(reindexRow (dfFromDict d2).cols (d2.map Prod.snd)
          (dfConcat (load_perf_csv fs) (dfFromDict d2)).cols).map cellToCsv]
      from rfl]
    rw [List.getLast?_concat]
    rw [hcols]
    simp only [reindexRow, List.map_map]
    congr 1
    apply List.map_congr_left
    intro c _
    simp only [Function.comp]
    rw [show (dfFromDict d2).cols = d2.map Prod.fst from rfl, rowLookup_keys_vals]

/-- C6 witness: the schema-preservation theorem evaluated on the
tagged scenario JSON against the absent report. -/
theorem update_perf_csv_single_schema_preserved_witness :
    ∃ rep : CsvFile,
      update_perf_csv { single_result := some jsonTagged } fs0 =
        (⟨some rep, some (to_csv (dfFromDict jsonTagged))⟩, .ok ()) ∧
      rep.header = perfCsvColumns ∧
      rep.rows.length = (load_perf_csv fs0).rows.length + 1 ∧
      (∀ row ∈ rep.rows, row.length = perfCsvColumns.length) ∧
      rep.rows.getLast? =
        some (perfCsvColumns.map (fun c =>
          cellToCsv ((dictGet? jsonTagged c).getD .nan))) :=
  update_perf_csv_single_schema_preserved fs0 jsonTagged jsonTagged rfl rfl
    (by decide)

/-! ### C2: multi-row append count, prefixing and order -/

/-- C2: for every valid multi-row artifact (one the handler accepts),
the number of rows appended to the report equals the number of rows in
the input CSV, and the report's model column gains — in input-file
order — exactly the strings `model_name ++ "_" ++ str(row.model)`. -/
theorem handle_multiple_results_count_and_model_fields
    (fs : FS) (pdf : DataFrame) (m : CsvFile) (ci : Dict) (mn : String)
    (fs2 : FS) (df2 : DataFrame)
    (h : handle_multiple_results fs pdf m (some ci) (some mn) = (fs2, .ok df2))
    (hmodel : "model" ∈ pdf.cols) :
    df2.rows.length = pdf.rows.length + m.rows.length ∧
    lookupRows df2 "model" = lookupRows pdf "model" ++
      m.rows.map (fun r => PyVal.str (mn ++ "_" ++
        pyStr (rowLookup (m.header.map strTrim) (r.map parseCell) "model"))) := by
  obtain ⟨ci2, _, _, hlen, hlook⟩ := handle_multiple_ok h
  refine ⟨hlen, ?_⟩
  rw [hlook "model" hmodel]
  congr 1
  apply List.map_congr_left
  intro r _
  rw [dictGet?_buildRow, if_neg (by decide), if_neg (by decide),
    if_neg (by decide), if_pos rfl]
  rfl

/-- C2 witness: the general count/prefix theorem evaluated on the
two-row scenario CSV against a report with model and status columns. -/
theorem handle_multiple_results_count_and_model_fields_witness :
    hmDf.rows.length = pdfMS.rows.length + multiCsv.rows.length ∧
    lookupRows hmDf "model" = lookupRows pdfMS "model" ++
      multiCsv.rows.map (fun r => PyVal.str ("suite1" ++ "_" ++
        pyStr (rowLookup (multiCsv.header.map strTrim) (r.map parseCell) "model"))) :=
  handle_multiple_results_count_and_model_fields fs0 pdfMS multiCsv
    commonTagsOnly "suite1" hmPair.1 hmDf rfl (by decide)

/-! ### C3: SUCCESS iff performance present and not NaN -/

/-- C3: on the multiple-results path every appended row's status is the
string produced by the `is not None` / `pd.notna` test on that row's
performance cell, and that test succeeds exactly when the value is
neither `None` nor `NaN` — so status is SUCCESS iff the performance is
present and not NaN, else FAILURE. -/
theorem handle_multiple_results_status_success_iff
    (fs : FS) (pdf : DataFrame) (m : CsvFile) (ci : Dict) (mn : String)
    (fs2 : FS) (df2 : DataFrame)
    (h : handle_multiple_results fs pdf m (some ci) (some mn) = (fs2, .ok df2))
    (hstatus : "status" ∈ pdf.cols) :
    lookupRows df2 "status" = lookupRows pdf "status" ++
      m.rows.map (fun r => PyVal.str
        (if isNotNone (rowLookup (m.header.map strTrim) (r.map parseCell)
              "performance") &&
            pdNotna (rowLookup (m.header.map strTrim) (r.map parseCell)
              "performance")
          then "SUCCESS" else "FAILURE")) ∧
    ∀ v : PyVal, (isNotNone v && pdNotna v) = true ↔
      (v ≠ PyVal.none ∧ v ≠ PyVal.nan) := by
  obtain ⟨ci2, _, _, _, hlook⟩ := handle_multiple_ok h
  constructor
  · rw [hlook "status" hstatus]
    congr 1
    apply List.map_congr_left
    intro r _
    rw [dictGet?_buildRow, if_pos rfl]
    rfl
  · intro v
    cases v <;> simp [isNotNone, pdNotna]

/-- C3 witness: on the scenario CSV, row `A,10.0,tok/s` yields SUCCESS
and row `B,,tok/s` yields FAILURE. -/
theorem handle_multiple_results_status_success_iff_witness :
    lookupRows hmDf "status" = lookupRows pdfMS "status" ++
      multiCsv.rows.map (fun r => PyVal.str
        (if isNotNone (rowLookup (multiCsv.header.map strTrim) (r.map parseCell)
              "performance") &&
            pdNotna (rowLookup (multiCsv.header.map strTrim) (r.map parseCell)
              "performance")
          then "SUCCESS" else "FAILURE")) ∧
    ∀ v : PyVal, (isNotNone v && pdNotna v) = true ↔
      (v ≠ PyVal.none ∧ v ≠ PyVal.nan) :=
  handle_multiple_results_status_success_iff fs0 pdfMS multiCsv
    commonTagsOnly "suite1" hmPair.1 hmDf rfl (by decide)

/-! ### C7: dispatch priority and the ignored `failed_result` -/

/-- C7: `update_perf_csv` dispatches on the supplied artifact in strict
priority order (`multiple_results` first, else `single_result`, else
`exception_result`); a supplied `failed_result` is never consumed — the
result does not depend on it — and a call supplying none of the three
consulted artifacts (whatever `failed_result` holds) raises the
missing-argument error immediately. -/
theorem update_perf_csv_dispatch_priority :
    (∀ (s e f : Option Dict) (mn : Option String) (ci : Option Dict)
        (m : CsvFile) (fs : FS),
      update_perf_csv ⟨s, e, f, some m, mn, ci⟩ fs =
        persist (handle_multiple_results fs (load_perf_csv fs) m ci mn)) ∧
    (∀ (s : Dict) (e f : Option Dict) (mn : Option String) (ci : Option Dict)
        (fs : FS),
      update_perf_csv ⟨some s, e, f, Option.none, mn, ci⟩ fs =
        persist (handle_single_result fs (load_perf_csv fs) s)) ∧
    (∀ (e : Dict) (f : Option Dict) (mn : Option String) (ci : Option Dict)
        (fs : FS),
      update_perf_csv ⟨Option.none, some e, f, Option.none, mn, ci⟩ fs =
        persist (handle_exception_result fs (load_perf_csv fs) e)) ∧
    (∀ (s e f1 f2 : Option Dict) (m : Option CsvFile) (mn : Option String)
        (ci : Option Dict) (fs : FS),
      update_perf_csv ⟨s, e, f1, m, mn, ci⟩ fs =
        update_perf_csv ⟨s, e, f2, m, mn, ci⟩ fs) ∧
    (∀ (f : Option Dict) (fs : FS),
      update_perf_csv ⟨Option.none, Option.none, f, Option.none, Option.none,
          Option.none⟩ fs =
        (fs, .error (.runtimeError
          "At least one of the following must be provided: single_result, exception_result, failed_result, multiple_results"))) :=
  ⟨fun _ _ _ _ _ _ _ => rfl, fun _ _ _ _ _ _ => rfl, fun _ _ _ _ _ => rfl,
    fun _ _ _ _ _ _ _ _ => rfl, fun _ _ => rfl⟩

/-! ### C8: flatten_tags is idempotent -/

/-- C8: flattening the `tags` field is idempotent — a record whose tags
are already a string is returned unchanged, a list is replaced by the
comma-join of its items (e.g. `["a","b"]` becomes `"a,b"`), and running
the flatten twice equals running it once. -/
theorem flatten_tags_idempotent :
    (∀ d : Dict, (flatten_tags d).bind flatten_tags = flatten_tags d) ∧
    (∀ (d : Dict) (s : String), dictGet? d "tags" = some (.str s) →
      flatten_tags d = .ok d) ∧
    flatten_tags [("tags", .vlist [.str "a", .str "b"])] =
      .ok [("tags", .str "a,b")] := by
  refine ⟨?_, ?_, rfl⟩
  · intro d
    cases hget : dictGet? d "tags" with
    | none => simp [flatten_tags, hget, Except.bind]
    | some v =>
        cases v with
        | vlist l =>
            simp only [flatten_tags, hget, Except.bind]
            show flatten_tags (dictSet d "tags" _) = _
            simp [flatten_tags, dictGet?_dictSet_self]
        | none => simp [flatten_tags, hget, Except.bind]
        | nan => simp [flatten_tags, hget, Except.bind]
        | boolean b => simp [flatten_tags, hget, Except.bind]
        | num s => simp [flatten_tags, hget, Except.bind]
        | str s => simp [flatten_tags, hget, Except.bind]
  · intro d s h
    simp [flatten_tags, h]

/-- C8 witness: a record whose tags are already a string is returned
unchanged. -/
theorem flatten_tags_idempotent_witness :
    flatten_tags [("tags", PyVal.str "x")] = .ok [("tags", PyVal.str "x")] :=
  flatten_tags_idempotent.2.1 [("tags", PyVal.str "x")] "x" rfl

/-! ### C9: Console.sh on nonzero exit with secret set -/

/-- C9: evaluation of the return-code handling of `Console.sh` at
`command="false"`, `can_fail=False`, `secret=True`, exit code 1: the
raise path builds its message by concatenating the boolean `secret`
into a string, so a `TypeError` is raised instead of the documented
`RuntimeError` naming a placeholder and the exit code. -/
theorem console_sh_check_secret_true_typeerror :
    console_sh_check "false" false (.boolean true) 1 "" =
      .error (.typeError "can only concatenate str (not bool) to str") := rfl

/-! ### C10: exception path equals single path -/

/-- C10: `handle_exception_result` and `handle_single_result` are the
same transform, and the appended row's status is taken verbatim from
the artifact (the exception path does not force FAILURE). -/
theorem handle_exception_result_eq_handle_single_result :
    (∀ (fs : FS) (pdf : DataFrame) (d : Dict),
      handle_exception_result fs pdf d = handle_single_result fs pdf d) ∧
    (∀ (fs : FS) (pdf : DataFrame) (d : Dict) (fs2 : FS) (df2 : DataFrame)
        (v : PyVal),
      handle_exception_result fs pdf d = (fs2, .ok df2) →
      dictGet? d "status" = some v →
      lookupRows df2 "status" = lookupRows pdf "status" ++ [v]) := by
  refine ⟨fun _ _ _ => rfl, ?_⟩
  intro fs pdf d fs2 df2 v h hstat
  cases hflat : flatten_tags d with
  | error e =>
      rw [show handle_exception_result fs pdf d = (fs, .error e) from by
        simp [handle_exception_result, perf_entry_dict_to_csv, hflat]] at h
      simp at h
  | ok d2 =>
      rw [show handle_exception_result fs pdf d =
          ({ fs with perfEntry := some (to_csv (dfFromDict d2)) },
            .ok (dfConcat pdf (dfFromDict d2))) from by
        simp [handle_exception_result, perf_entry_dict_to_csv,
          perf_entry_df_to_csv, hflat]] at h
      have hdf : dfConcat pdf (dfFromDict d2) = df2 := by
        have h2 := congrArg Prod.snd h
        simpa using h2
      subst hdf
      have hstat2 : dictGet? d2 "status" = some v := by
        rw [flatten_tags_get_ne hflat (by decide)]
        exact hstat
      have hkey : "status" ∈ (dfFromDict d2).cols :=
        mem_dictKeys_of_get hstat2
      have hcdf : "status" ∈ (dfConcat pdf (dfFromDict d2)).cols :=
        mem_dfConcat_cols.mpr (Or.inr hkey)
      rw [lookupRows_dfConcat hcdf, lookupRows_dfFromDict, hstat2]
      rfl

/-- C10 witness: on a concrete artifact whose status is `SUCCESS`, the
exception path appends that status verbatim. -/
theorem handle_exception_result_eq_handle_single_result_witness :
    lookupRows (dfConcat pdfMS (dfFromDict jsonTagged)) "status" =
      lookupRows pdfMS "status" ++ [PyVal.str "SUCCESS"] :=
  handle_exception_result_eq_handle_single_result.2 fs0 pdfMS jsonTagged
    { fs0 with perfEntry := some (to_csv (dfFromDict jsonTagged)) }
    (dfConcat pdfMS (dfFromDict jsonTagged)) (PyVal.str "SUCCESS") rfl rfl

end MAD
